import Mathlib

/-!
Verification of the freedom-port-control repository: the mapping controller
(`port-control.js`), the NAT-PMP and PCP wire engines (`nat-pmp.js`, `pcp.js`)
and the UPnP engine (`upnp.js`), shallowly embedded in Lean 4.

Conventions of the embedding:
* An `ArrayBuffer` is modelled as its byte store, a function `Nat → Nat`
  (index to byte value, zero-initialised); reading it out as a list of
  `n` bytes is `bufferBytes n`.  `DataView.setInt8/16/32(offset, v, false)`
  become big-endian byte writes at the given offset (JS coerces `v` modulo
  2^width, and the written bytes agree for signed and unsigned views).
* IPv4 addresses are their 32-bit values (`Nat` below 2^32); dotted-quad
  constants are written with the `ipv4` helper.
* Promise chains become explicit result values: a promise that resolves is
  `Except.ok` / a plain value, one that rejects is `Except.error`, and (for
  the one code path that can do so) one that never settles is `none`.
* JS strings are `List Char`.
-/

namespace PortControl

/-- Write byte `v` at index `i` of a byte store. -/
def bufSet (buf : Nat → Nat) (i v : Nat) : Nat → Nat :=
  fun j => if j = i then v else buf j

/-- One row `[bits, byteOffset, value]` of the compact matrix notation taken
by `utils.createArrayBuffer` (src/src/pcp.js, `createArrayBuffer`). -/
structure Row where
  bits : Nat
  off : Nat
  val : Nat

/-- One `DataView.setInt8/16/32(off, val, false)` call: big-endian bytes of
`val` (taken modulo 2^bits, as JS does) written starting at `off`. -/
def applyRow (buf : Nat → Nat) (r : Row) : Nat → Nat :=
  if r.bits = 8 then bufSet buf r.off (r.val % 256)
  else if r.bits = 16 then
    bufSet (bufSet buf r.off (r.val / 256 % 256)) (r.off + 1) (r.val % 256)
  else if r.bits = 32 then
    bufSet (bufSet (bufSet (bufSet buf
      r.off (r.val / 16777216 % 256))
      (r.off + 1) (r.val / 65536 % 256))
      (r.off + 2) (r.val / 256 % 256))
      (r.off + 3) (r.val % 256)
  else buf

/-- The first `n` bytes of a byte store, as a list. -/
def bufferBytes (n : Nat) (buf : Nat → Nat) : List Nat :=
  (List.range n).map buf

/-- `utils.createArrayBuffer(bytes, matrix)` (src/src/pcp.js): a zero-filled
buffer of `bytes` bytes with the matrix rows applied in order. -/
def createArrayBuffer (bytes : Nat) (matrix : List Row) : List Nat :=
  bufferBytes bytes (matrix.foldl applyRow (fun _ => 0))

/-- The 12-byte NAT-PMP request built by `sendPmpRequest`
(src/src/nat-pmp.js, lines 184-191). -/
def sendPmpRequestBuffer (intPort extPort lifetime : Nat) : List Nat :=
  createArrayBuffer 12 [⟨8, 0, 0⟩, ⟨8, 1, 1⟩, ⟨16, 2, 0⟩,
    ⟨16, 4, intPort⟩, ⟨16, 6, extPort⟩, ⟨32, 8, lifetime⟩]

/-- The 60-byte PCP MAP request built by `sendPcpRequest`
(src/src/pcp.js, lines 227-269). The client IP arrives as its four parsed
octets (`ipaddr.IPv4.parse(privateIp).octets`); when no nonce is supplied
the three freshly drawn random words `freshNonce` are used. -/
def sendPcpRequestBuffer (o0 o1 o2 o3 intPort extPort lifetime : Nat)
    (nonce : Option (Nat × Nat × Nat)) (freshNonce : Nat × Nat × Nat) :
    List Nat :=
  let n := nonce.getD freshNonce
  createArrayBuffer 60 [⟨32, 0, 0x2010000⟩, ⟨32, 4, lifetime⟩,
    ⟨16, 18, 0xffff⟩,
    ⟨8, 20, o0⟩, ⟨8, 21, o1⟩, ⟨8, 22, o2⟩, ⟨8, 23, o3⟩,
    ⟨32, 24, n.1⟩, ⟨32, 28, n.2.1⟩, ⟨32, 32, n.2.2⟩,
    ⟨8, 36, 17⟩,
    ⟨16, 40, intPort⟩, ⟨16, 42, extPort⟩, ⟨16, 54, 0xffff⟩]

/-- The 32-bit value of a dotted-quad IPv4 address. -/
def ipv4 (a b c d : Nat) : Nat := ((a * 256 + b) * 256 + c) * 256 + d

/-- **C6.** The NAT-PMP engine builds exactly a 12-byte big-endian request:
byte 0 = 0 (version), byte 1 = 1 (op, UDP MAP), bytes 2-3 = 0 (reserved),
the internal port at bytes 4-5, the external port at bytes 6-7, and the
requested lifetime in seconds at bytes 8-11. -/
theorem natpmp_request_layout (intPort extPort lifetime : Nat)
    (hip : intPort < 65536) (hep : extPort < 65536)
    (hlt : lifetime < 4294967296) :
    sendPmpRequestBuffer intPort extPort lifetime =
      [0, 1, 0, 0,
       intPort / 256, intPort % 256,
       extPort / 256, extPort % 256,
       lifetime / 16777216, lifetime / 65536 % 256, lifetime / 256 % 256,
       lifetime % 256] := by
  have h1 : intPort / 256 % 256 = intPort / 256 :=
    Nat.mod_eq_of_lt (Nat.div_lt_of_lt_mul (by omega))
  have h2 : extPort / 256 % 256 = extPort / 256 :=
    Nat.mod_eq_of_lt (Nat.div_lt_of_lt_mul (by omega))
  have h3 : lifetime / 16777216 % 256 = lifetime / 16777216 :=
    Nat.mod_eq_of_lt (Nat.div_lt_of_lt_mul (by omega))
  calc sendPmpRequestBuffer intPort extPort lifetime
      = [0, 1, 0, 0,
         intPort / 256 % 256, intPort % 256,
         extPort / 256 % 256, extPort % 256,
         lifetime / 16777216 % 256, lifetime / 65536 % 256,
         lifetime / 256 % 256, lifetime % 256] := rfl
    _ = _ := by rw [h1, h2, h3]

/-- Witness for C6: concrete evaluation at internal port 0x1234, external
port 0x5678, lifetime 120. -/
theorem natpmp_request_layout_witness :
    sendPmpRequestBuffer 4660 22136 120 =
      [0, 1, 0, 0, 18, 52, 86, 120, 0, 0, 0, 120] :=
  natpmp_request_layout 4660 22136 120 (by norm_num) (by norm_num)
    (by norm_num)

set_option maxHeartbeats 1000000 in
/-- **C3.** For every client IPv4 address (octets `o0.o1.o2.o3`), internal
port, suggested external port, lifetime and 3-word nonce, the PCP engine
builds exactly a 60-byte big-endian MAP request: byte 0 = 2 (version),
byte 1 = 1 (R=0, opcode MAP), bytes 2-3 zero, the requested lifetime at
bytes 4-7, the client IP as IPv4-mapped IPv6 (zero through byte 17, 0xffff
at bytes 18-19, the four octets at bytes 20-23), the nonce at bytes 24-35,
protocol 17 at byte 36, bytes 37-39 zero, the internal port at bytes 40-41,
the suggested external port at bytes 42-43, and the suggested external
address as the all-zero IPv4-mapped IPv6 (0xffff at bytes 54-55, all other
bytes of 44-59 zero). -/
theorem pcp_map_request_layout (o0 o1 o2 o3 intPort extPort lifetime
    n1 n2 n3 : Nat) (fresh : Nat × Nat × Nat)
    (h0 : o0 < 256) (h1 : o1 < 256) (h2 : o2 < 256) (h3 : o3 < 256)
    (hip : intPort < 65536) (hep : extPort < 65536)
    (hlt : lifetime < 4294967296) (hn1 : n1 < 4294967296)
    (hn2 : n2 < 4294967296) (hn3 : n3 < 4294967296) :
    sendPcpRequestBuffer o0 o1 o2 o3 intPort extPort lifetime
        (some (n1, n2, n3)) fresh =
      [2, 1, 0, 0,
       lifetime / 16777216, lifetime / 65536 % 256, lifetime / 256 % 256,
       lifetime % 256,
       0, 0, 0, 0, 0, 0, 0, 0, 0, 0, 255, 255,
       o0, o1, o2, o3,
       n1 / 16777216, n1 / 65536 % 256, n1 / 256 % 256, n1 % 256,
       n2 / 16777216, n2 / 65536 % 256, n2 / 256 % 256, n2 % 256,
       n3 / 16777216, n3 / 65536 % 256, n3 / 256 % 256, n3 % 256,
       17, 0, 0, 0,
       intPort / 256, intPort % 256, extPort / 256, extPort % 256,
       0, 0, 0, 0, 0, 0, 0, 0, 0, 0, 255, 255, 0, 0, 0, 0] := by
  obtain ⟨f1, f2, f3⟩ := fresh
  have e0 : o0 % 256 = o0 := Nat.mod_eq_of_lt h0
  have e1 : o1 % 256 = o1 := Nat.mod_eq_of_lt h1
  have e2 : o2 % 256 = o2 := Nat.mod_eq_of_lt h2
  have e3 : o3 % 256 = o3 := Nat.mod_eq_of_lt h3
  have eip : intPort / 256 % 256 = intPort / 256 :=
    Nat.mod_eq_of_lt (Nat.div_lt_of_lt_mul (by omega))
  have eep : extPort / 256 % 256 = extPort / 256 :=
    Nat.mod_eq_of_lt (Nat.div_lt_of_lt_mul (by omega))
  have elt : lifetime / 16777216 % 256 = lifetime / 16777216 :=
    Nat.mod_eq_of_lt (Nat.div_lt_of_lt_mul (by omega))
  have en1 : n1 / 16777216 % 256 = n1 / 16777216 :=
    Nat.mod_eq_of_lt (Nat.div_lt_of_lt_mul (by omega))
  have en2 : n2 / 16777216 % 256 = n2 / 16777216 :=
    Nat.mod_eq_of_lt (Nat.div_lt_of_lt_mul (by omega))
  have en3 : n3 / 16777216 % 256 = n3 / 16777216 :=
    Nat.mod_eq_of_lt (Nat.div_lt_of_lt_mul (by omega))
  calc sendPcpRequestBuffer o0 o1 o2 o3 intPort extPort lifetime
        (some (n1, n2, n3)) (f1, f2, f3)
      = [2, 1, 0, 0,
         lifetime / 16777216 % 256, lifetime / 65536 % 256,
         lifetime / 256 % 256, lifetime % 256,
         0, 0, 0, 0, 0, 0, 0, 0, 0, 0, 255, 255,
         o0 % 256, o1 % 256, o2 % 256, o3 % 256,
         n1 / 16777216 % 256, n1 / 65536 % 256, n1 / 256 % 256, n1 % 256,
         n2 / 16777216 % 256, n2 / 65536 % 256, n2 / 256 % 256, n2 % 256,
         n3 / 16777216 % 256, n3 / 65536 % 256, n3 / 256 % 256, n3 % 256,
         17, 0, 0, 0,
         intPort / 256 % 256, intPort % 256,
         extPort / 256 % 256, extPort % 256,
         0, 0, 0, 0, 0, 0, 0, 0, 0, 0, 255, 255, 0, 0, 0, 0] := rfl
    _ = _ := by rw [e0, e1, e2, e3, eip, eep, elt, en1, en2, en3]

set_option maxHeartbeats 1000000 in
/-- Witness for C3: concrete evaluation at client IP 192.168.1.50, internal
and external port 55556, lifetime 120, nonce (10, 11, 12). -/
theorem pcp_map_request_layout_witness :
    sendPcpRequestBuffer 192 168 1 50 55556 55556 120
        (some (10, 11, 12)) (7, 8, 9) =
      [2, 1, 0, 0, 0, 0, 0, 120,
       0, 0, 0, 0, 0, 0, 0, 0, 0, 0, 255, 255,
       192, 168, 1, 50,
       0, 0, 0, 10, 0, 0, 0, 11, 0, 0, 0, 12,
       17, 0, 0, 0,
       217, 4, 217, 4,
       0, 0, 0, 0, 0, 0, 0, 0, 0, 0, 255, 255, 0, 0, 0, 0] :=
  pcp_map_request_layout 192 168 1 50 55556 55556 120 10 11 12 (7, 8, 9)
    (by norm_num) (by norm_num) (by norm_num) (by norm_num) (by norm_num)
    (by norm_num) (by norm_num) (by norm_num) (by norm_num) (by norm_num)

/-- The protocol tag stored in `Mapping.protocol` ('natPmp', 'pcp', 'upnp'). -/
inductive Proto where
  | natPmp
  | pcp
  | upnp
deriving DecidableEq, Repr

/-- The `Mapping` object of `utils.js` (src/src/pcp.js, `utils.Mapping`):
every field starts `undefined` except `externalPort`, which starts at the
failure sentinel -1.  `timeoutId` is carried separately by the scheduling
model, and the `deleter` closure by the deletion model. -/
structure Mapping where
  internalIp : Option Nat := none
  internalPort : Option Nat := none
  externalIp : Option Nat := none
  externalPort : Int := -1
  lifetime : Option Nat := none
  protocol : Option Proto := none
  nonce : Option (Nat × Nat × Nat) := none
  errInfo : Option (List Char) := none
deriving DecidableEq, Repr

/-- `PortControl.prototype.protocolSupportCache` (port-control.js of the
current generation, src/unnamed/part_003, lines 35-40): all fields start
`undefined` and are filled by `probeProtocolSupport`. -/
structure ProtocolSupportCache where
  natPmp : Option Bool := none
  pcp : Option Bool := none
  upnp : Option Bool := none
  upnpControlUrl : Option (List Char) := none
deriving DecidableEq, Repr

/-- `PortControl.prototype.addMapping` (src/unnamed/part_003, lines 55-90),
as a function of the protocol-support cache and of the Mapping each engine
would produce if invoked.  The second component records which engines the
call invokes, in order.  The cache is unset iff its `natPmp` field is
`undefined`; in the cached branch a protocol is tried iff its flag is
truthy (`=== true` here, since the probe stores booleans). -/
def addMappingDispatch (cache : ProtocolSupportCache)
    (pmpRes pcpRes upnpRes : Mapping) : Mapping × List Proto :=
  match cache.natPmp with
  | none =>
    if pmpRes.externalPort ≠ -1 then (pmpRes, [.natPmp])
    else if pcpRes.externalPort ≠ -1 then (pcpRes, [.natPmp, .pcp])
    else (upnpRes, [.natPmp, .pcp, .upnp])
  | some _ =>
    if cache.natPmp = some true then (pmpRes, [.natPmp])
    else if cache.pcp = some true then (pcpRes, [.pcp])
    else if cache.upnp = some true then (upnpRes, [.upnp])
    else ({ errInfo :=
              some "No protocols are supported from last probe".data }, [])

/-- **C1 (counterexample).** With the protocol-support cache set and all
three flags false, `addMapping` returns a failure Mapping whose `errInfo`
is "No protocols are supported from last probe", not the claimed
"No protocols supported". -/
theorem addMapping_err_info_counterexample :
    (addMappingDispatch ⟨some false, some false, some false, none⟩
        {} {} {}).1.errInfo ≠ some "No protocols supported".data ∧
    (addMappingDispatch ⟨some false, some false, some false, none⟩
        {} {} {}).1.errInfo =
      some "No protocols are supported from last probe".data := by
  constructor
  · decide
  · rfl

/-- **C1 (amended).** For every `add_mapping(int, ext, lifetime)` call:
while the cache is unset the controller invokes NAT-PMP, then PCP, then
UPnP, in that order, returning the first Mapping whose external port is
not -1 and not invoking the later engines after a success; if the cache is
set it dispatches directly to one protocol, preferring NatPmp over Pcp
over Upnp; and if all three cached flags are false it returns a failure
Mapping with `errInfo` = "No protocols are supported from last probe"
without invoking any engine. -/
theorem addMapping_dispatch_amended (cache : ProtocolSupportCache)
    (mp mc mu : Mapping) :
    (cache.natPmp = none →
      (mp.externalPort ≠ -1 →
        addMappingDispatch cache mp mc mu = (mp, [.natPmp])) ∧
      (mp.externalPort = -1 → mc.externalPort ≠ -1 →
        addMappingDispatch cache mp mc mu = (mc, [.natPmp, .pcp])) ∧
      (mp.externalPort = -1 → mc.externalPort = -1 →
        addMappingDispatch cache mp mc mu = (mu, [.natPmp, .pcp, .upnp]))) ∧
    (cache.natPmp = some true →
      addMappingDispatch cache mp mc mu = (mp, [.natPmp])) ∧
    (cache.natPmp = some false → cache.pcp = some true →
      addMappingDispatch cache mp mc mu = (mc, [.pcp])) ∧
    (cache.natPmp = some false → cache.pcp ≠ some true →
      cache.upnp = some true →
      addMappingDispatch cache mp mc mu = (mu, [.upnp])) ∧
    (cache.natPmp = some false → cache.pcp ≠ some true →
      cache.upnp ≠ some true →
      (addMappingDispatch cache mp mc mu).1.externalPort = -1 ∧
      (addMappingDispatch cache mp mc mu).1.errInfo =
        some "No protocols are supported from last probe".data ∧
      (addMappingDispatch cache mp mc mu).2 = []) := by
  obtain ⟨n, p, u, curl⟩ := cache
  refine ⟨?_, ?_, ?_, ?_, ?_⟩
  · rintro rfl
    exact ⟨fun h => by simp [addMappingDispatch, h],
           fun h h2 => by simp [addMappingDispatch, h, h2],
           fun h h2 => by simp [addMappingDispatch, h, h2]⟩
  · rintro rfl
    simp [addMappingDispatch]
  · rintro rfl hp
    simp only at hp
    simp [addMappingDispatch, hp]
  · rintro rfl hp hu
    simp only at hp hu
    simp [addMappingDispatch, hp, hu]
  · rintro rfl hp hu
    simp only at hp hu
    simp [addMappingDispatch, hp, hu]

/-- Witness for C1 (amended): with an unset cache and a NAT-PMP success at
external port 50000, only the NAT-PMP engine is invoked and its Mapping is
returned. -/
theorem addMapping_dispatch_amended_witness :
    addMappingDispatch {} { externalPort := 50000 } {} {} =
      ({ externalPort := 50000 }, [.natPmp]) :=
  ((addMapping_dispatch_amended {} { externalPort := 50000 } {} {}).1
    rfl).1 (by decide)

/-- A timer armed by `_saveAndRefreshMapping` / the tail of `addMappingPmp`:
either a one-shot refresh that re-invokes the protocol's add with the given
arguments after `delayMs`, or a one-shot deletion of the ActiveMappings
entry after `delayMs`, or no timer at all. -/
inductive RefreshAction where
  | refresh (delayMs : Nat) (intPort : Nat) (extPort : Int)
      (newLifetime : Nat)
  | expireDelete (delayMs : Nat)
  | noTimer
deriving DecidableEq, Repr

/-- The timer armed by the tail of `addMappingPmp` (src/src/nat-pmp.js,
lines 78-99) after a NAT-PMP add requested with `lifetime` was answered
with external port `ext` and granted lifetime `actual`.
`reqLifetime` is 24 h when the requested lifetime is 0 (line 36). -/
def scheduleRefreshPmp (intPort lifetime : Nat) (ext : Int) (actual : Nat) :
    RefreshAction :=
  let reqLifetime := if lifetime = 0 then 86400 else lifetime
  let d : Int := (reqLifetime : Int) - (actual : Int)
  if ext ≠ -1 ∧ d > 0 then
    .refresh (actual * 1000) intPort ext (reqLifetime - actual)
  else if ext ≠ -1 ∧ lifetime = 0 then .refresh 86400000 intPort ext 0
  else if ext ≠ -1 then .expireDelete (actual * 1000)
  else .noTimer

/-- The timer armed by `_saveAndRefreshMapping` (src/src/pcp.js, lines
107-124) after a PCP add requested with `lifetime` was answered with
external port `ext` and granted lifetime `actual`; same logic as the
NAT-PMP tail. -/
def scheduleRefreshPcp (intPort lifetime : Nat) (ext : Int) (actual : Nat) :
    RefreshAction :=
  let reqLifetime := if lifetime = 0 then 86400 else lifetime
  let d : Int := (reqLifetime : Int) - (actual : Int)
  if ext ≠ -1 ∧ d > 0 then
    .refresh (actual * 1000) intPort ext (reqLifetime - actual)
  else if ext ≠ -1 ∧ lifetime = 0 then .refresh 86400000 intPort ext 0
  else if ext ≠ -1 then .expireDelete (actual * 1000)
  else .noTimer

/-- The refresh schedule exactly as claim C2 states it: the `L = 0` case is
checked first and arms the 24-hour refresh with lifetime 0. -/
def claimedScheduleC2 (intPort lifetime : Nat) (ext : Int) (actual : Nat) :
    RefreshAction :=
  if ext = -1 then .noTimer
  else if lifetime = 0 then .refresh 86400000 intPort ext 0
  else if (lifetime : Int) - (actual : Int) > 0 then
    .refresh (actual * 1000) intPort ext (lifetime - actual)
  else .expireDelete (actual * 1000)

/-- **C2 (counterexample).** A NAT-PMP add with requested lifetime 0 whose
router grants 3600 s arms a refresh at 3600 s that re-invokes the add with
lifetime 86400 - 3600 = 82800 — not the claimed 24-hour timer re-invoking
with lifetime 0. -/
theorem refresh_schedule_counterexample :
    scheduleRefreshPmp 55555 0 50000 3600 =
      .refresh 3600000 55555 50000 82800 ∧
    scheduleRefreshPmp 55555 0 50000 3600 ≠
      claimedScheduleC2 55555 0 50000 3600 := by
  constructor
  · decide
  · decide

/-- The refresh schedule the code actually implements, stated with the
`Δ > 0` test performed first against `reqLifetime` (24 h when the request
was for 0). -/
def claimedScheduleAmended (intPort lifetime : Nat) (ext : Int)
    (actual : Nat) : RefreshAction :=
  let reqLifetime := if lifetime = 0 then 86400 else lifetime
  if ext = -1 then .noTimer
  else if actual < reqLifetime then
    .refresh (actual * 1000) intPort ext (reqLifetime - actual)
  else if lifetime = 0 then .refresh 86400000 intPort ext 0
  else .expireDelete (actual * 1000)

/-- **C2 (amended).** For every NAT-PMP or PCP add with requested lifetime
L answered with external port `ext` and granted lifetime A, with
`reqLifetime` = 24 h when L = 0 and L otherwise: if A < reqLifetime a
one-shot timer at A seconds re-invokes the protocol's add with lifetime
`reqLifetime - A`; else if L = 0 a one-shot timer at 24 h re-invokes it
with lifetime 0; else a one-shot timer at A seconds removes the entry from
ActiveMappings.  In particular a call with lifetime 0 never schedules an
expiry-delete. -/
theorem refresh_schedule_amended :
    (∀ i l e a, scheduleRefreshPmp i l e a = claimedScheduleAmended i l e a)
    ∧ (∀ i l e a,
        scheduleRefreshPcp i l e a = claimedScheduleAmended i l e a)
    ∧ (∀ i e a d, scheduleRefreshPmp i 0 e a ≠ .expireDelete d)
    ∧ (∀ i e a d, scheduleRefreshPcp i 0 e a ≠ .expireDelete d) := by
  have key : ∀ i l e a,
      scheduleRefreshPmp i l e a = claimedScheduleAmended i l e a := by
    intro i l e a
    unfold scheduleRefreshPmp claimedScheduleAmended
    generalize (if l = 0 then (86400 : Nat) else l) = rl
    by_cases he : e = -1
    · simp [he]
    · by_cases hd : a < rl
      · have hi : (0 : Int) < (rl : Int) - (a : Int) := by omega
        simp [he, hd, hi]
      · have hi : ¬ ((0 : Int) < (rl : Int) - (a : Int)) := by omega
        by_cases hl : l = 0 <;> simp [he, hd, hl, hi]
  have pcpEq : ∀ i l e a,
      scheduleRefreshPcp i l e a = scheduleRefreshPmp i l e a :=
    fun _ _ _ _ => rfl
  have keyNoDelete : ∀ i e a (d : Nat),
      claimedScheduleAmended i 0 e a ≠ .expireDelete d := by
    intro i e a d
    unfold claimedScheduleAmended
    by_cases he : e = -1
    · simp [he]
    · by_cases hd : a < 86400 <;> simp [he, hd]
  refine ⟨key, fun i l e a => (pcpEq i l e a).trans (key i l e a),
    fun i e a d => ?_, fun i e a d => ?_⟩
  · rw [key]
    exact keyNoDelete i e a d
  · rw [pcpEq, key]
    exact keyNoDelete i e a d

/-- `ip.match(routerIp, mask)` of ipaddr.js as used by `longestPrefixMatch`:
the first `mask` bits of the two 32-bit addresses agree. -/
def ipMatch (ip routerIp mask : Nat) : Bool :=
  ip / 2 ^ (32 - mask) == routerIp / 2 ^ (32 - mask)

/-- The inner loop of `utils.longestPrefixMatch` (src/src/pcp.js, lines
422-440; identically src/src/port-control.js, lines 974-992): for
`mask = 1..31`, at the first failing mask push `mask - 1` and break.  If
every mask in 1..31 matches, nothing is pushed — `none` here. -/
def prefixMatchEntry (ip routerIp : Nat) : Option Nat :=
  (List.range' 1 31).findSome? fun mask =>
    if ipMatch ip routerIp mask then none else some (mask - 1)

/-- `Math.max.apply(null, l)`: `none` models -Infinity on the empty list. -/
def jsMaxList (l : List Nat) : Option Nat :=
  l.foldl (fun acc x =>
    match acc with
    | none => some x
    | some m => some (max m x)) none

/-- `l.indexOf(x)` restricted to found/not-found: the first index of `x`. -/
def natIndexOf : List Nat → Nat → Option Nat
  | [], _ => none
  | a :: t, x => if a = x then some 0 else (natIndexOf t x).map (· + 1)

/-- `utils.longestPrefixMatch(ipList, routerIp)` (src/src/pcp.js, lines
422-440): build `prefixMatches` by the inner loop (note: a candidate
matching the router on every mask 1..31 contributes no entry), take
`Math.max` of it, find that value's first index, and return
`ipList[maxIndex]`.  `none` models the `undefined` result of indexing with
-1 (empty `prefixMatches`). -/
def longestPrefixMatch (ipList : List Nat) (routerIp : Nat) : Option Nat :=
  let prefixMatches := ipList.filterMap (fun ip => prefixMatchEntry ip routerIp)
  match jsMaxList prefixMatches with
  | none => none
  | some mx =>
    match natIndexOf prefixMatches mx with
    | some maxIndex => ipList.get? maxIndex
    | none => none

/-- The common-prefix length the claim speaks about: the number of leading
bits (capped at 31) on which candidate and target agree. -/
def commonPrefixLen (ip routerIp : Nat) : Nat :=
  ((List.range' 1 31).takeWhile (fun mask => ipMatch ip routerIp mask)).length

/-- `longest_prefix_match` as claim C9 states it: the candidate maximizing
the common-prefix length, earliest index on ties. -/
def claimedLongestPrefixMatch (ipList : List Nat) (routerIp : Nat) :
    Option Nat :=
  let lens := ipList.map (fun ip => commonPrefixLen ip routerIp)
  match jsMaxList lens with
  | none => none
  | some mx =>
    match natIndexOf lens mx with
    | some maxIndex => ipList.get? maxIndex
    | none => none

/-- **C9 (refuting evaluation).** On candidates [192.0.0.0, 10.0.0.3] with
target 10.0.0.2, the code returns 192.0.0.0 — the candidate sharing 0
leading bits — although 10.0.0.3 shares 31 leading bits with the target
(so the claim, stated as `claimedLongestPrefixMatch`, requires 10.0.0.3):
a candidate matching the target on every mask 1..31 pushes nothing onto
`prefixMatches`, so the argmax indexes the wrong candidate. -/
theorem longestPrefixMatch_wrong_candidate :
    longestPrefixMatch [ipv4 192 0 0 0, ipv4 10 0 0 3] (ipv4 10 0 0 2) =
      some (ipv4 192 0 0 0) ∧
    claimedLongestPrefixMatch [ipv4 192 0 0 0, ipv4 10 0 0 3]
        (ipv4 10 0 0 2) = some (ipv4 10 0 0 3) ∧
    commonPrefixLen (ipv4 10 0 0 3) (ipv4 10 0 0 2) = 31 ∧
    commonPrefixLen (ipv4 192 0 0 0) (ipv4 10 0 0 2) = 0 := by
  refine ⟨?_, ?_, ?_, ?_⟩ <;> decide

/-- `s.indexOf(pat)` on JS strings: the first index at which `pat` occurs
in `s`, or -1. -/
def jsIndexOf (s pat : List Char) : Int :=
  match (List.range (s.length + 1)).find?
      (fun i => pat.isPrefixOf (s.drop i)) with
  | some i => (i : Int)
  | none => -1

/-- The error substring `probeSupport` looks for (src/src/upnp.js, line 15). -/
def conflictPat : List Char := "ConflictInMappingEntry".data

/-- The rejection message built by `sendAddPortMapping` on an HTTP 500
(src/src/upnp.js, line 311): `'AddPortMapping Error: ' + errorDescription`. -/
def addPortMappingError (desc : List Char) : List Char :=
  "AddPortMapping Error: ".data ++ desc

/-- The controller's table of active Mappings, keyed by external port. -/
abbrev ActiveMappings := List (Int × Mapping)

/-- `activeMappings[k] = m` (insert or overwrite). -/
def amSet (am : ActiveMappings) (k : Int) (m : Mapping) : ActiveMappings :=
  (k, m) :: am.filter (fun p => p.1 ≠ k)

/-- `delete activeMappings[k]`. -/
def amErase (am : ActiveMappings) (k : Int) : ActiveMappings :=
  am.filter (fun p => p.1 ≠ k)

/-- `activeMappings[k]` lookup. -/
def amGet (am : ActiveMappings) (k : Int) : Option Mapping :=
  (am.find? (fun p => p.1 == k)).map Prod.snd

/-- `upnp.addMapping`'s Mapping construction (src/src/upnp.js, lines 36-76)
as a function of the AddPortMapping SOAP outcome and of the internal IP
chosen by longest-prefix match against the control URL's host: on success
the requested external port and lifetime are recorded; on any error
`_handleError` stores the message in `errInfo` and the external port stays
-1. -/
def addMappingUpnp (intPort extPort lifetime : Nat)
    (soap : Except (List Char) (List Char)) (internalIp : Option Nat) :
    Mapping :=
  let m0 : Mapping := { internalPort := some intPort,
                        protocol := some .upnp }
  match soap with
  | .ok _ => { m0 with externalPort := (extPort : Int),
                       internalIp := internalIp,
                       lifetime := some lifetime }
  | .error msg => { m0 with errInfo := some msg }

/-- `_saveMapping` of `upnp.addMapping` (src/src/upnp.js, lines 82-96): on
success and nonzero lifetime arm a one-shot deletion at
`mapping.lifetime*1000` ms, and on success insert the Mapping into
activeMappings (UPnP never refreshes). -/
def saveMappingUpnp (lifetime : Nat) (m : Mapping) (am : ActiveMappings) :
    ActiveMappings × Option Nat :=
  let timer := if m.externalPort ≠ -1 ∧ lifetime ≠ 0 then
      some (m.lifetime.getD 0 * 1000)
    else none
  let am' := if m.externalPort ≠ -1 then amSet am m.externalPort m else am
  (am', timer)

/-- `upnp.probeSupport` (src/src/upnp.js, lines 11-21): a probe add at port
55557 with lifetime 120; returns true when the Mapping's `errInfo` is a
nonempty string containing 'ConflictInMappingEntry', else whether the
external port is not -1. -/
def probeSupportUpnp (soap : Except (List Char) (List Char))
    (internalIp : Option Nat) (am : ActiveMappings) :
    Bool × ActiveMappings × Option Nat :=
  let m := addMappingUpnp 55557 55557 120 soap internalIp
  let b := match m.errInfo with
    | some s =>
      if s ≠ [] ∧ jsIndexOf s conflictPat ≠ -1 then true
      else m.externalPort != -1
    | none => m.externalPort != -1
  (b, (saveMappingUpnp 120 m am).1, (saveMappingUpnp 120 m am).2)

theorem jsIndexOf_ne_neg_one_iff (s pat : List Char) :
    jsIndexOf s pat ≠ -1 ↔
      ∃ i, i ≤ s.length ∧ pat.isPrefixOf (s.drop i) = true := by
  unfold jsIndexOf
  cases hfind : (List.range (s.length + 1)).find?
      (fun i => pat.isPrefixOf (s.drop i)) with
  | none =>
    show (-1 : Int) ≠ -1 ↔ _
    constructor
    · intro h
      exact absurd rfl h
    · rintro ⟨i, hi, hp⟩
      intro _
      have hmem := List.find?_eq_none.mp hfind i
        (List.mem_range.mpr (by omega))
      exact absurd hp (by simpa using hmem)
  | some i =>
    show (i : Int) ≠ -1 ↔ _
    constructor
    · intro _
      have hp := List.find?_some hfind
      have hmem := List.mem_range.mp (List.mem_of_find?_eq_some hfind)
      exact ⟨i, by omega, by simpa using hp⟩
    · intro _
      omega

theorem jsIndexOf_append_left {s pat : List Char} (pre : List Char)
    (h : jsIndexOf s pat ≠ -1) : jsIndexOf (pre ++ s) pat ≠ -1 := by
  rw [jsIndexOf_ne_neg_one_iff] at h ⊢
  obtain ⟨i, hi, hp⟩ := h
  refine ⟨pre.length + i, ?_, ?_⟩
  · simp only [List.length_append]
    omega
  · rw [List.drop_append]
    exact hp

/-- **C8.** During `probeUpnpSupport`, an AddPortMapping failing with an
HTTP 500 whose errorDescription contains ConflictInMappingEntry makes the
probe return true although the probe mapping itself failed
(external port -1); and whenever the resulting Mapping's `errInfo` does
not contain that substring, the probe returns true iff the mapping's
external port is not -1. -/
theorem upnp_probe_support_decision :
    (∀ (desc : List Char) (iip : Option Nat) (am : ActiveMappings),
      jsIndexOf desc conflictPat ≠ -1 →
      (probeSupportUpnp (.error (addPortMappingError desc)) iip am).1 =
        true ∧
      (addMappingUpnp 55557 55557 120 (.error (addPortMappingError desc))
        iip).externalPort = -1) ∧
    (∀ (soap : Except (List Char) (List Char)) (iip : Option Nat)
        (am : ActiveMappings),
      (∀ s, (addMappingUpnp 55557 55557 120 soap iip).errInfo = some s →
        jsIndexOf s conflictPat = -1) →
      (probeSupportUpnp soap iip am).1 =
        ((addMappingUpnp 55557 55557 120 soap iip).externalPort != -1)) := by
  constructor
  · intro desc iip am h
    have hocc : jsIndexOf (addPortMappingError desc) conflictPat ≠ -1 :=
      jsIndexOf_append_left _ h
    have hne : addPortMappingError desc ≠ [] := by
      simp [addPortMappingError]
    constructor
    · simp [probeSupportUpnp, addMappingUpnp, saveMappingUpnp, hocc, hne]
    · simp [addMappingUpnp]
  · intro soap iip am h
    cases soap with
    | ok resp => simp [probeSupportUpnp, addMappingUpnp, saveMappingUpnp]
    | error msg =>
      have hmsg : jsIndexOf msg conflictPat = -1 :=
        h msg (by simp [addMappingUpnp])
      simp [probeSupportUpnp, addMappingUpnp, saveMappingUpnp, hmsg]

/-- Witness for C8: a 500 response whose errorDescription is exactly
'ConflictInMappingEntry' makes the probe return true. -/
theorem upnp_probe_support_decision_witness :
    (probeSupportUpnp
      (.error (addPortMappingError "ConflictInMappingEntry".data))
      none []).1 = true :=
  ((upnp_probe_support_decision.1 "ConflictInMappingEntry".data none [])
    (by decide)).1

/-- The request `pcp.deleteMapping` sends to each router (src/src/pcp.js,
line 165): `sendPcpRequest(routerIp, privateIp, intPort, 0, 0, nonce)`,
the nonce being the one read from the stored Mapping
(`activeMappings[extPort].nonce`, line 156). -/
def pcpDeletionRequest (o0 o1 o2 o3 intPort : Nat)
    (nonce : Nat × Nat × Nat) (fresh : Nat × Nat × Nat) : List Nat :=
  sendPcpRequestBuffer o0 o1 o2 o3 intPort 0 0 (some nonce) fresh

/-- `_deleteFromActiveMappings` (src/src/pcp.js, lines 190-205): scan the
responses in order; at the first non-null one whose result code (byte 3)
is 0 or 8, clear the refresh timer, delete the entry and return true;
if no response qualifies return false.  Result components: the table after
the call, the returned boolean, and whether `clearTimeout` ran.  A response
shorter than 4 bytes makes `getUint8(3)` throw, which the outer catch maps
to false with nothing deleted. -/
def deleteFromActiveMappingsPcp (extPort : Int) (am : ActiveMappings) :
    List (Option (List Nat)) → ActiveMappings × Bool × Bool
  | [] => (am, false, false)
  | none :: rest => deleteFromActiveMappingsPcp extPort am rest
  | some b :: rest =>
    match b.get? 3 with
    | none => (am, false, false)
    | some c =>
      if c = 0 ∨ c = 8 then (amErase am extPort, true, true)
      else deleteFromActiveMappingsPcp extPort am rest

set_option maxHeartbeats 1000000 in
/-- **C4.** Deleting a PCP mapping sends a PCP MAP request with lifetime 0
and suggested external port 0 that reuses the nonce stored in the Mapping
(the freshly drawn nonce is irrelevant), and a result code of 0 (SUCCESS)
or 8 (NO_RESOURCES) is treated as successful deletion — timer cleared,
entry removed, true returned — while any other result code across all
responses yields false with nothing removed. -/
theorem pcp_delete_behavior :
    (∀ o0 o1 o2 o3 ip n fresh fresh',
      pcpDeletionRequest o0 o1 o2 o3 ip n fresh =
        pcpDeletionRequest o0 o1 o2 o3 ip n fresh') ∧
    (∀ (m : Mapping) (o0 o1 o2 o3 ip n1 n2 n3 : Nat)
        (fresh : Nat × Nat × Nat),
      m.nonce = some (n1, n2, n3) →
      o0 < 256 → o1 < 256 → o2 < 256 → o3 < 256 → ip < 65536 →
      n1 < 4294967296 → n2 < 4294967296 → n3 < 4294967296 →
      pcpDeletionRequest o0 o1 o2 o3 ip (n1, n2, n3) fresh =
        [2, 1, 0, 0,
         0, 0, 0, 0,
         0, 0, 0, 0, 0, 0, 0, 0, 0, 0, 255, 255,
         o0, o1, o2, o3,
         n1 / 16777216, n1 / 65536 % 256, n1 / 256 % 256, n1 % 256,
         n2 / 16777216, n2 / 65536 % 256, n2 / 256 % 256, n2 % 256,
         n3 / 16777216, n3 / 65536 % 256, n3 / 256 % 256, n3 % 256,
         17, 0, 0, 0,
         ip / 256, ip % 256, 0, 0,
         0, 0, 0, 0, 0, 0, 0, 0, 0, 0, 255, 255, 0, 0, 0, 0]) ∧
    (∀ (rs : List (Option (List Nat))) (extPort : Int)
        (am : ActiveMappings),
      (∀ b ∈ rs.filterMap id, 3 < b.length) →
      ((∃ b ∈ rs.filterMap id, b.get? 3 = some 0 ∨ b.get? 3 = some 8) →
        deleteFromActiveMappingsPcp extPort am rs =
          (amErase am extPort, true, true)) ∧
      ((∀ b ∈ rs.filterMap id, b.get? 3 ≠ some 0 ∧ b.get? 3 ≠ some 8) →
        deleteFromActiveMappingsPcp extPort am rs = (am, false, false))) := by
  refine ⟨fun _ _ _ _ _ _ _ _ => rfl, ?_, ?_⟩
  · intro m o0 o1 o2 o3 ip n1 n2 n3 fresh _ h0 h1 h2 h3 hip hn1 hn2 hn3
    obtain ⟨f1, f2, f3⟩ := fresh
    have e0 : o0 % 256 = o0 := Nat.mod_eq_of_lt h0
    have e1 : o1 % 256 = o1 := Nat.mod_eq_of_lt h1
    have e2 : o2 % 256 = o2 := Nat.mod_eq_of_lt h2
    have e3 : o3 % 256 = o3 := Nat.mod_eq_of_lt h3
    have eip : ip / 256 % 256 = ip / 256 :=
      Nat.mod_eq_of_lt (Nat.div_lt_of_lt_mul (by omega))
    have en1 : n1 / 16777216 % 256 = n1 / 16777216 :=
      Nat.mod_eq_of_lt (Nat.div_lt_of_lt_mul (by omega))
    have en2 : n2 / 16777216 % 256 = n2 / 16777216 :=
      Nat.mod_eq_of_lt (Nat.div_lt_of_lt_mul (by omega))
    have en3 : n3 / 16777216 % 256 = n3 / 16777216 :=
      Nat.mod_eq_of_lt (Nat.div_lt_of_lt_mul (by omega))
    calc pcpDeletionRequest o0 o1 o2 o3 ip (n1, n2, n3) (f1, f2, f3)
        = [2, 1, 0, 0,
           0, 0, 0, 0,
           0, 0, 0, 0, 0, 0, 0, 0, 0, 0, 255, 255,
           o0 % 256, o1 % 256, o2 % 256, o3 % 256,
           n1 / 16777216 % 256, n1 / 65536 % 256, n1 / 256 % 256, n1 % 256,
           n2 / 16777216 % 256, n2 / 65536 % 256, n2 / 256 % 256, n2 % 256,
           n3 / 16777216 % 256, n3 / 65536 % 256, n3 / 256 % 256, n3 % 256,
           17, 0, 0, 0,
           ip / 256 % 256, ip % 256, 0, 0,
           0, 0, 0, 0, 0, 0, 0, 0, 0, 0, 255, 255, 0, 0, 0, 0] := rfl
      _ = _ := by rw [e0, e1, e2, e3, eip, en1, en2, en3]
  · intro rs
    induction rs with
    | nil =>
      intro extPort am _
      constructor
      · rintro ⟨b, hb, _⟩
        simp at hb
      · intro _
        rfl
    | cons head tail ih =>
      intro extPort am hwf
      cases head with
      | none =>
        have hwf' : ∀ b ∈ tail.filterMap id, 3 < b.length := by
          intro b hb
          exact hwf b (by simpa using hb)
        have := ih extPort am hwf'
        constructor
        · intro hex
          have hex' : ∃ b ∈ tail.filterMap id,
              b.get? 3 = some 0 ∨ b.get? 3 = some 8 := by
            obtain ⟨b, hb, hc⟩ := hex
            exact ⟨b, by simpa using hb, hc⟩
          simpa [deleteFromActiveMappingsPcp] using this.1 hex'
        · intro hall
          have hall' : ∀ b ∈ tail.filterMap id,
              b.get? 3 ≠ some 0 ∧ b.get? 3 ≠ some 8 := by
            intro b hb
            exact hall b (by simpa using hb)
          simpa [deleteFromActiveMappingsPcp] using this.2 hall'
      | some b =>
        have hblen : 3 < b.length := hwf b (by simp)
        obtain ⟨c, hc⟩ : ∃ c, b.get? 3 = some c := by
          cases hg : b.get? 3 with
          | none =>
            rw [List.get?_eq_none] at hg
            omega
          | some c => exact ⟨c, rfl⟩
        have hc' : b[3]? = some c := by simpa using hc
        have hwf' : ∀ x ∈ tail.filterMap id, 3 < x.length := by
          intro x hx
          exact hwf x (by simp [hx])
        by_cases hcd : c = 0 ∨ c = 8
        · constructor
          · intro _
            simp [deleteFromActiveMappingsPcp, hc', hcd]
          · intro hall
            have := hall b (by simp)
            rcases hcd with rfl | rfl
            · exact absurd hc this.1
            · exact absurd hc this.2
        · have hrec := ih extPort am hwf'
          constructor
          · intro hex
            have hex' : ∃ x ∈ tail.filterMap id,
                x.get? 3 = some 0 ∨ x.get? 3 = some 8 := by
              obtain ⟨x, hx, hcx⟩ := hex
              rcases (by simpa using hx : x = b ∨ x ∈ tail.filterMap id)
                with rfl | hx'
              · rw [hc] at hcx
                rcases hcx with h | h <;>
                  exact absurd (Option.some.inj h).symm (by tauto)
              · exact ⟨x, hx', hcx⟩
            simpa [deleteFromActiveMappingsPcp, hc', hcd] using hrec.1 hex'
          · intro hall
            have hall' : ∀ x ∈ tail.filterMap id,
                x.get? 3 ≠ some 0 ∧ x.get? 3 ≠ some 8 := by
              intro x hx
              exact hall x (by simp [hx])
            simpa [deleteFromActiveMappingsPcp, hc', hcd] using hrec.2 hall'

/-- Witness for C4: a stored nonce (10, 11, 12) yields the deletion request
with all-zero lifetime and external port and those nonce words, and a
single router reply with result code 8 deletes the entry and returns
true. -/
theorem pcp_delete_behavior_witness :
    pcpDeletionRequest 192 168 1 50 55556 (10, 11, 12) (7, 8, 9) =
      [2, 1, 0, 0,
       0, 0, 0, 0,
       0, 0, 0, 0, 0, 0, 0, 0, 0, 0, 255, 255,
       192, 168, 1, 50,
       0, 0, 0, 10, 0, 0, 0, 11, 0, 0, 0, 12,
       17, 0, 0, 0,
       217, 4, 0, 0,
       0, 0, 0, 0, 0, 0, 0, 0, 0, 0, 255, 255, 0, 0, 0, 0] ∧
    deleteFromActiveMappingsPcp 50000 [] [some [0, 0, 0, 8]] =
      ([], true, true) :=
  ⟨pcp_delete_behavior.2.1 { nonce := some (10, 11, 12) }
      192 168 1 50 55556 10 11 12 (7, 8, 9) rfl
      (by norm_num) (by norm_num) (by norm_num) (by norm_num) (by norm_num)
      (by norm_num) (by norm_num) (by norm_num),
   (pcp_delete_behavior.2.2 [some [0, 0, 0, 8]] 50000 [] (by decide)).1
      ⟨[0, 0, 0, 8], by decide, by decide⟩⟩

/-- `utils.ROUTER_IPS` (src/src/pcp.js, utils section lines 293-297): the
static ordered list of popular default gateway addresses. -/
def ROUTER_IPS : List Nat :=
  [ipv4 192 168 1 1, ipv4 192 168 2 1, ipv4 192 168 11 1,
   ipv4 192 168 0 1, ipv4 192 168 0 30, ipv4 192 168 0 50,
   ipv4 192 168 20 1, ipv4 192 168 30 1, ipv4 192 168 62 1,
   ipv4 192 168 100 1, ipv4 192 168 102 1, ipv4 192 168 1 254,
   ipv4 192 168 10 1, ipv4 192 168 123 254, ipv4 192 168 4 1,
   ipv4 10 0 1 1, ipv4 10 1 1 1, ipv4 10 0 0 13, ipv4 10 0 0 2,
   ipv4 10 0 0 138]

/-- Modelled from the spec: `arr_union` (`utils.arrAdd`), whose source (the
current generation of utils.js) is not under src/ — only its call sites in
src/src/pcp.js are.  "Set-like sequence operations preserving order":
append each element of `ys` not already present. -/
def arrAdd (xs : List Nat) : List Nat → List Nat
  | [] => xs
  | y :: t => arrAdd (if xs.contains y then xs else xs ++ [y]) t

/-- Modelled from the spec: `arr_difference` (`utils.arrDiff`), whose
source is not under src/: the elements of `xs` not in `ys`, order
preserved. -/
def arrDiff (xs ys : List Nat) : List Nat :=
  xs.filter (fun x => !ys.contains x)

/-- Modelled from the spec: `filter_router_candidates`
(`utils.filterRouterIps`), whose source is not under src/: "from the
default candidate list, returns those whose /24 subnet matches any local
address". -/
def filterRouterIps (privateIps : List Nat) : List Nat :=
  ROUTER_IPS.filter (fun r => privateIps.any (fun p => p / 256 == r / 256))

/-- The first usable reply when racing the routers of one wave in order
(individual failures are mapped to null and skipped). -/
def firstReply {α : Type} (ips : List Nat) (reply : Nat → Option α) :
    Option (Nat × α) :=
  ips.findSome? (fun ip => (reply ip).map (fun r => (ip, r)))

/-- Modelled from the spec: `_sendPmpRequestsInWaves` of the current
NAT-PMP engine (`natPmp.addMapping`), whose source is not under src/ —
only its caller (src/unnamed/part_003) and the sibling wave code in
src/src/pcp.js (`_sendPcpRequestsInWaves`, lines 90-102) are.  First wave:
`arrAdd(routerIpCache, filterRouterIps(privateIps))`; if it produces no
usable reply, second wave: `arrDiff(ROUTER_IPS, firstWave)`.  Returns the
waves actually sent and the winning (routerIp, reply) pair, if any. -/
def sendPmpRequestsInWaves {α : Type} (routerIpCache privateIps : List Nat)
    (reply : Nat → Option α) : List (List Nat) × Option (Nat × α) :=
  let matched := arrAdd routerIpCache (filterRouterIps privateIps)
  match firstReply matched reply with
  | some r => ([matched], some r)
  | none =>
    let others := arrDiff ROUTER_IPS matched
    ([matched, others], firstReply others reply)

/-- Modelled from the spec: on the first usable reply the NAT-PMP engine
"adds the responding router IP to RouterIpCache if absent" (mirroring
src/src/pcp.js, lines 77-79). -/
def pmpUpdatedRouterIpCache {α : Type} (routerIpCache privateIps : List Nat)
    (reply : Nat → Option α) : List Nat :=
  match (sendPmpRequestsInWaves routerIpCache privateIps reply).2 with
  | some (ip, _) =>
    if routerIpCache.contains ip then routerIpCache
    else routerIpCache ++ [ip]
  | none => routerIpCache

theorem mem_arrAdd (xs ys : List Nat) (x : Nat) :
    x ∈ arrAdd xs ys ↔ x ∈ xs ∨ x ∈ ys := by
  induction ys generalizing xs with
  | nil => simp [arrAdd]
  | cons y t ih =>
    show x ∈ arrAdd (if xs.contains y then xs else xs ++ [y]) t ↔ _
    rw [ih]
    by_cases hy : xs.contains y
    · have : y ∈ xs := by simpa using hy
      simp only [if_pos hy, List.mem_cons]
      constructor
      · rintro (h | h)
        · exact Or.inl h
        · exact Or.inr (Or.inr h)
      · rintro (h | rfl | h)
        · exact Or.inl h
        · exact Or.inl this
        · exact Or.inr h
    · simp only [if_neg hy, List.mem_append, List.mem_singleton,
        List.mem_cons]
      tauto

theorem prefix_arrAdd (xs ys : List Nat) : xs <+: arrAdd xs ys := by
  induction ys generalizing xs with
  | nil => exact List.prefix_refl xs
  | cons y t ih =>
    show xs <+: arrAdd (if xs.contains y then xs else xs ++ [y]) t
    refine List.IsPrefix.trans ?_ (ih _)
    by_cases hy : xs.contains y
    · rw [if_pos hy]
    · rw [if_neg hy]
      exact List.prefix_append xs [y]

theorem nodup_arrAdd (xs ys : List Nat) (h : xs.Nodup) :
    (arrAdd xs ys).Nodup := by
  induction ys generalizing xs with
  | nil => exact h
  | cons y t ih =>
    show (arrAdd (if xs.contains y then xs else xs ++ [y]) t).Nodup
    refine ih _ ?_
    by_cases hy : xs.contains y
    · rwa [if_pos hy]
    · rw [if_neg hy]
      have : y ∉ xs := by simpa using hy
      simp [List.nodup_append, h, this]

/-- **C5.** (spec-modelled NAT-PMP engine) The add sends its requests in
two waves: the first wave is `arrAdd(routerIpCache, filterRouterIps(ips))`
— exactly the union of the cache and the default candidates whose /24
subnet matches a local address, de-duplicated, cache entries first — the
second wave, sent only when no usable reply arrives, covers exactly the
default candidates not already tried; and the responding router of the
first usable reply is appended to the RouterIpCache if absent. -/
theorem natpmp_wave_strategy {α : Type} (cache privateIps : List Nat)
    (reply : Nat → Option α) (hnd : cache.Nodup) :
    ((sendPmpRequestsInWaves cache privateIps reply).1.head? =
      some (arrAdd cache (filterRouterIps privateIps))) ∧
    (arrAdd cache (filterRouterIps privateIps)).Nodup ∧
    (cache <+: arrAdd cache (filterRouterIps privateIps)) ∧
    (∀ x, x ∈ arrAdd cache (filterRouterIps privateIps) ↔
      x ∈ cache ∨ x ∈ filterRouterIps privateIps) ∧
    (∀ x, x ∈ filterRouterIps privateIps ↔
      x ∈ ROUTER_IPS ∧ ∃ p ∈ privateIps, p / 256 = x / 256) ∧
    ((firstReply (arrAdd cache (filterRouterIps privateIps))
        reply).isSome →
      (sendPmpRequestsInWaves cache privateIps reply).1 =
        [arrAdd cache (filterRouterIps privateIps)]) ∧
    (firstReply (arrAdd cache (filterRouterIps privateIps)) reply = none →
      (sendPmpRequestsInWaves cache privateIps reply).1 =
        [arrAdd cache (filterRouterIps privateIps),
         arrDiff ROUTER_IPS (arrAdd cache (filterRouterIps privateIps))]) ∧
    (∀ w x, x ∈ arrDiff ROUTER_IPS w ↔ x ∈ ROUTER_IPS ∧ x ∉ w) ∧
    (∀ ip r,
      (sendPmpRequestsInWaves cache privateIps reply).2 = some (ip, r) →
      (pmpUpdatedRouterIpCache cache privateIps reply).Nodup ∧
      ip ∈ pmpUpdatedRouterIpCache cache privateIps reply ∧
      (∀ y, y ∈ pmpUpdatedRouterIpCache cache privateIps reply ↔
        y ∈ cache ∨ y = ip) ∧
      cache <+: pmpUpdatedRouterIpCache cache privateIps reply) := by
  have waves_eq : sendPmpRequestsInWaves cache privateIps reply =
      match firstReply (arrAdd cache (filterRouterIps privateIps)) reply
        with
      | some r => ([arrAdd cache (filterRouterIps privateIps)], some r)
      | none =>
        ([arrAdd cache (filterRouterIps privateIps),
          arrDiff ROUTER_IPS (arrAdd cache (filterRouterIps privateIps))],
         firstReply
           (arrDiff ROUTER_IPS (arrAdd cache (filterRouterIps privateIps)))
           reply) := rfl
  refine ⟨?_, nodup_arrAdd _ _ hnd, prefix_arrAdd _ _, mem_arrAdd _ _,
    ?_, ?_, ?_, ?_, ?_⟩
  · rw [waves_eq]
    cases hfr : firstReply (arrAdd cache (filterRouterIps privateIps))
        reply <;> rfl
  · intro x
    simp only [filterRouterIps, List.mem_filter, List.any_eq_true,
      beq_iff_eq]
  · intro hs
    rw [waves_eq]
    cases hfr : firstReply (arrAdd cache (filterRouterIps privateIps))
        reply with
    | none => rw [hfr] at hs; simp at hs
    | some r => rfl
  · intro hn
    rw [waves_eq, hn]
  · intro w x
    simp [arrDiff, List.mem_filter]
  · intro ip r hres
    have hupd : pmpUpdatedRouterIpCache cache privateIps reply =
        (if cache.contains ip then cache else cache ++ [ip]) := by
      unfold pmpUpdatedRouterIpCache
      rw [hres]
    rw [hupd]
    by_cases hin : cache.contains ip
    · have hmem : ip ∈ cache := by simpa using hin
      rw [if_pos hin]
      refine ⟨hnd, hmem, fun y => ?_, List.prefix_refl _⟩
      constructor
      · intro h
        exact Or.inl h
      · rintro (h | rfl)
        · exact h
        · exact hmem
    · have hmem : ip ∉ cache := by simpa using hin
      rw [if_neg hin]
      refine ⟨by simp [List.nodup_append, hnd, hmem], by simp,
        fun y => by simp, List.prefix_append _ _⟩

/-- Witness for C5: with cached router 10.0.0.138, local address
192.168.1.50 and no router answering, both waves are sent: the first is
the cache entry followed by the /24-matched default candidates, the second
the remaining default candidates. -/
theorem natpmp_wave_strategy_witness :
    (sendPmpRequestsInWaves [ipv4 10 0 0 138] [ipv4 192 168 1 50]
        (fun _ : Nat => (none : Option Unit))).1 =
      [arrAdd [ipv4 10 0 0 138] (filterRouterIps [ipv4 192 168 1 50]),
       arrDiff ROUTER_IPS
         (arrAdd [ipv4 10 0 0 138]
           (filterRouterIps [ipv4 192 168 1 50]))] :=
  (natpmp_wave_strategy [ipv4 10 0 0 138] [ipv4 192 168 1 50]
      (fun _ => none) (by decide)).2.2.2.2.2.2.1 rfl

/-- `DataView.getUint16(off, false)` on a byte list; `none` models the
RangeError thrown on a too-short buffer. -/
def getUint16 (b : List Nat) (off : Nat) : Option Nat :=
  match b.get? off, b.get? (off + 1) with
  | some x, some y => some (x * 256 + y)
  | _, _ => none

/-- `DataView.getUint32(off, false)` on a byte list; `none` models the
RangeError thrown on a too-short buffer. -/
def getUint32 (b : List Nat) (off : Nat) : Option Nat :=
  match b.get? off, b.get? (off + 1), b.get? (off + 2), b.get? (off + 3)
    with
  | some x, some y, some z, some w =>
    some (((x * 256 + y) * 256 + z) * 256 + w)
  | _, _, _, _ => none

/-- `addMappingPmp` (src/src/nat-pmp.js, lines 30-107).  `responses` is the
outcome per router of `sendPmpRequest` (the reply's data bytes and the
responding router's address, or null on timeout); the loop takes the first
non-null one and reads the external port at byte 10 and granted lifetime at
byte 12.  `privateIps` is the `utils.getPrivateIps()` outcome; its
rejection (and any read past the buffer) is absorbed by the chain's final
catch, which returns the mapping as mutated so far.  Result: the Mapping,
the activeMappings table after the call, and the timer armed. -/
def addMappingPmp (intPort extPort lifetime : Nat) (am : ActiveMappings)
    (responses : List (Option (List Nat × Nat)))
    (privateIps : Except (List Char) (List Nat)) :
    Mapping × ActiveMappings × RefreshAction :=
  let m0 : Mapping := { internalPort := some intPort,
                        protocol := some .natPmp }
  let m1 :=
    match responses.findSome? id with
    | none => m0
    | some (data, addr) =>
      match getUint16 data 10 with
      | none => m0
      | some ep =>
        match getUint32 data 12 with
        | none => { m0 with externalPort := (ep : Int) }
        | some lt =>
          let m' := { m0 with externalPort := (ep : Int),
                              lifetime := some lt }
          match privateIps with
          | .ok ips => { m' with internalIp := longestPrefixMatch ips addr }
          | .error _ => m'
  let act := scheduleRefreshPmp intPort lifetime m1.externalPort
    (m1.lifetime.getD 0)
  let am' := if m1.externalPort ≠ -1 then amSet am m1.externalPort m1
    else am
  (m1, am', act)

/-- `probePmpSupport` (src/src/nat-pmp.js, lines 11-15): an add at probe
port 55555 with lifetime 120; true iff the mapping's external port is
not -1. -/
def probePmpSupport (am : ActiveMappings)
    (responses : List (Option (List Nat × Nat)))
    (privateIps : Except (List Char) (List Nat)) :
    Bool × ActiveMappings × RefreshAction :=
  ((addMappingPmp 55555 55555 120 am responses
      privateIps).1.externalPort != -1,
   (addMappingPmp 55555 55555 120 am responses privateIps).2)

/-- The body of `_sendPcpRequests`' response loop for one non-null response
(src/src/pcp.js, lines 62-80): external IP from bytes 56-59, external port
at 42, granted lifetime at 4, nonce words at 24/28/32; `none` models a
DataView RangeError on a short datagram. -/
def parsePcpResponse (m : Mapping) (privateIp : Nat) (r : List Nat) :
    Option Mapping :=
  match r.get? 56, r.get? 57, r.get? 58, r.get? 59, getUint16 r 42,
      getUint32 r 4, getUint32 r 24, getUint32 r 28, getUint32 r 32 with
  | some a, some b, some c, some d, some ep, some lt, some w1, some w2,
      some w3 =>
    some { m with externalIp := some (ipv4 a b c d),
                  externalPort := (ep : Int),
                  internalIp := some privateIp,
                  lifetime := some lt,
                  nonce := some (w1, w2, w3) }
  | _, _, _, _, _, _, _, _, _ => none

/-- The whole response loop of `_sendPcpRequests` (src/src/pcp.js, lines
59-85): it has no break, so the last non-null response wins, and every
responding router is appended to the routerIpCache if absent; a parse
exception aborts the loop and the chain's catch returns the mapping as
mutated so far.  Entries are (routerIp, chosen privateIp, response). -/
def processPcpResponses (m : Mapping) (cache : List Nat) :
    List (Nat × Nat × Option (List Nat)) → Mapping × List Nat
  | [] => (m, cache)
  | (_, _, none) :: rest => processPcpResponses m cache rest
  | (ip, pip, some r) :: rest =>
    match parsePcpResponse m pip r with
    | none => (m, cache)
    | some m' =>
      processPcpResponses m'
        (if cache.contains ip then cache else cache ++ [ip]) rest

/-- The requests of one PCP wave (src/src/pcp.js, lines 46-58): for each
router IP the engine picks the longest-prefix-match private IP and records
the reply.  The `undefined` result of `longestPrefixMatch` (whose
`ipaddr.IPv4.parse` would then throw, be caught, and fail the attempt) is
modelled as address 0. -/
def pcpWaveEntries (ips privateIps : List Nat)
    (reply : Nat → Option (List Nat)) :
    List (Nat × Nat × Option (List Nat)) :=
  ips.map (fun ip => (ip, (longestPrefixMatch privateIps ip).getD 0,
    reply ip))

/-- `pcp.addMapping` (src/src/pcp.js, lines 32-139): the waves of
`_sendPcpRequestsInWaves` followed by `_saveAndRefreshMapping`.
`Except.error` models the returned promise rejecting: the
`utils.getPrivateIps()` call heading `_sendPcpRequestsInWaves` has no
catch, and neither does `addMapping` itself, so a `getPrivateIps`
rejection rejects the whole add. -/
def addMappingPcp (intPort extPort lifetime : Nat) (am : ActiveMappings)
    (routerIpCache : List Nat)
    (privateIps : Except (List Char) (List Nat))
    (reply : Nat → Option (List Nat)) :
    Except (List Char)
      (Mapping × ActiveMappings × List Nat × RefreshAction) := do
  let ips ← privateIps
  let m0 : Mapping := { internalPort := some intPort,
                        protocol := some .pcp }
  let matched := arrAdd routerIpCache (filterRouterIps ips)
  let (m1, cache1) := processPcpResponses m0 routerIpCache
    (pcpWaveEntries matched ips reply)
  let (m2, cache2) :=
    if m1.externalPort ≠ -1 then (m1, cache1)
    else processPcpResponses m1 cache1
      (pcpWaveEntries (arrDiff ROUTER_IPS matched) ips reply)
  let act := scheduleRefreshPcp intPort lifetime m2.externalPort
    (m2.lifetime.getD 0)
  let am' := if m2.externalPort ≠ -1 then amSet am m2.externalPort m2
    else am
  pure (m2, am', cache2, act)

/-- `pcp.probeSupport` (src/src/pcp.js, lines 12-16): an add at probe port
55556 with lifetime 120; true iff the mapping's external port is not -1. -/
def probePcpSupport (am : ActiveMappings) (routerIpCache : List Nat)
    (privateIps : Except (List Char) (List Nat))
    (reply : Nat → Option (List Nat)) :
    Except (List Char) (Bool × ActiveMappings × List Nat × RefreshAction) :=
  (addMappingPcp 55556 55556 120 am routerIpCache privateIps reply).map
    (fun x => (x.1.externalPort != -1, x.2))

/-- `_handleControlUrl` of `upnp.addMapping` (src/src/upnp.js, lines
55-76): the outer Promise is resolved or rejected only from inside
`utils.getPrivateIps().then(...)`; a `getPrivateIps` rejection is never
caught inside the executor, so the promise — and with it the whole
`addMapping` — never settles: `none` models that. -/
def upnpHandleControlUrlSettles
    (privateIps : Except (List Char) (List Nat)) (routerIp : Nat)
    (soapOf : Nat → Except (List Char) (List Char))
    (intPort extPort lifetime : Nat) : Option Mapping :=
  match privateIps with
  | .error _ => none
  | .ok ips =>
    let iip := (longestPrefixMatch ips routerIp).getD 0
    some (addMappingUpnp intPort extPort lifetime (soapOf iip) (some iip))

/-- **C7 (refuting evaluation).** The claim says every engine top-level add
settles with a Mapping (external port -1 on failure) and never rejects or
hangs.  But when `getPrivateIps` rejects — no local IPv4 discovered within
its 2-second window — `pcp.addMapping` rejects with that very error, and
the UPnP `_handleControlUrl` promise never settles. -/
theorem engine_add_can_reject_or_hang :
    addMappingPcp 55556 55556 120 [] []
        (.error "getPrivateIps() failed".data) (fun _ => none) =
      .error "getPrivateIps() failed".data ∧
    upnpHandleControlUrlSettles (.error "getPrivateIps() failed".data)
      (ipv4 192 168 1 1) (fun _ => .ok []) 55557 55557 120 = none :=
  ⟨rfl, rfl⟩

theorem amGet_amSet (am : ActiveMappings) (k : Int) (m : Mapping) :
    amGet (amSet am k m) k = some m := by
  simp [amGet, amSet]

theorem scheduleRefreshPmp_armed (i l : Nat) (e : Int) (a : Nat)
    (he : e ≠ -1) : scheduleRefreshPmp i l e a ≠ .noTimer := by
  unfold scheduleRefreshPmp
  generalize (if l = 0 then (86400 : Nat) else l) = rl
  by_cases hd : (0 : Int) < (rl : Int) - (a : Int)
  · simp [he, hd]
  · by_cases hl : l = 0 <;> simp [he, hd, hl]

theorem scheduleRefreshPcp_armed (i l : Nat) (e : Int) (a : Nat)
    (he : e ≠ -1) : scheduleRefreshPcp i l e a ≠ .noTimer := by
  have h : scheduleRefreshPcp i l e a = scheduleRefreshPmp i l e a := rfl
  rw [h]
  exact scheduleRefreshPmp_armed i l e a he

theorem processPcpResponses_none (m : Mapping) (cache : List Nat)
    (l : List (Nat × Nat × Option (List Nat)))
    (h : ∀ e ∈ l, e.2.2 = none) :
    processPcpResponses m cache l = (m, cache) := by
  induction l with
  | nil => rfl
  | cons e rest ih =>
    obtain ⟨ip, pip, o⟩ := e
    have ho : o = none := h (ip, pip, o) (by simp)
    subst ho
    show processPcpResponses m cache rest = (m, cache)
    exact ih (fun e he => h e (by simp [he]))

theorem processPcpResponses_single (m m' : Mapping) (cache : List Nat)
    (l1 l2 : List (Nat × Nat × Option (List Nat))) (ip pip : Nat)
    (r : List Nat)
    (h1 : ∀ e ∈ l1, e.2.2 = none) (h2 : ∀ e ∈ l2, e.2.2 = none)
    (hp : parsePcpResponse m pip r = some m') :
    processPcpResponses m cache (l1 ++ (ip, pip, some r) :: l2) =
      (m', if cache.contains ip then cache else cache ++ [ip]) := by
  induction l1 with
  | nil =>
    show processPcpResponses m cache ((ip, pip, some r) :: l2) = _
    simp only [processPcpResponses, hp]
    exact processPcpResponses_none _ _ l2 h2
  | cons e rest ih =>
    obtain ⟨a, b, o⟩ := e
    have ho : o = none := h1 (a, b, o) (by simp)
    subst ho
    show processPcpResponses m cache
      (rest ++ (ip, pip, some r) :: l2) = _
    exact ih (fun e he => h1 e (by simp [he]))

theorem pcp_add_single_responder (am : ActiveMappings)
    (cache ips : List Nat) (reply : Nat → Option (List Nat))
    (ip0 : Nat) (r : List Nat) (a b c d A w1 w2 w3 : Nat) (mval : Mapping)
    (hnd : cache.Nodup)
    (hip0 : ip0 ∈ arrAdd cache (filterRouterIps ips))
    (hothers : ∀ ip, ip ≠ ip0 → reply ip = none)
    (hr : reply ip0 = some r)
    (h56 : r.get? 56 = some a) (h57 : r.get? 57 = some b)
    (h58 : r.get? 58 = some c) (h59 : r.get? 59 = some d)
    (h42 : getUint16 r 42 = some 55556)
    (h4 : getUint32 r 4 = some A)
    (h24 : getUint32 r 24 = some w1) (h28 : getUint32 r 28 = some w2)
    (h32 : getUint32 r 32 = some w3)
    (hmv : mval = { internalPort := some 55556,
                    protocol := some Proto.pcp,
                    externalIp := some (ipv4 a b c d),
                    externalPort := 55556,
                    internalIp := some ((longestPrefixMatch ips ip0).getD 0),
                    lifetime := some A, nonce := some (w1, w2, w3) }) :
    addMappingPcp 55556 55556 120 am cache (.ok ips) reply =
      .ok (mval, amSet am 55556 mval,
           (if cache.contains ip0 then cache else cache ++ [ip0]),
           scheduleRefreshPcp 55556 120 55556 A) := by
  have hparse : ∀ m : Mapping,
      parsePcpResponse m ((longestPrefixMatch ips ip0).getD 0) r =
        some { m with externalIp := some (ipv4 a b c d),
                      externalPort := ((55556 : Nat) : Int),
                      internalIp :=
                        some ((longestPrefixMatch ips ip0).getD 0),
                      lifetime := some A,
                      nonce := some (w1, w2, w3) } := by
    intro m
    unfold parsePcpResponse
    rw [h56, h57, h58, h59, h42, h4, h24, h28, h32]
  obtain ⟨s, t, hst⟩ := List.append_of_mem hip0
  have hndm : (arrAdd cache (filterRouterIps ips)).Nodup :=
    nodup_arrAdd _ _ hnd
  rw [hst, List.nodup_append] at hndm
  obtain ⟨hsnd, hctnd, hdisj⟩ := hndm
  have hip0s : ip0 ∉ s := fun hx => hdisj hx (List.mem_cons_self ip0 t)
  have hip0t : ip0 ∉ t := (List.nodup_cons.mp hctnd).1
  have hentries : pcpWaveEntries (s ++ ip0 :: t) ips reply =
      pcpWaveEntries s ips reply ++
        (ip0, (longestPrefixMatch ips ip0).getD 0, some r) ::
          pcpWaveEntries t ips reply := by
    simp [pcpWaveEntries, hr]
  have hs' : ∀ e ∈ pcpWaveEntries s ips reply, e.2.2 = none := by
    intro e he
    simp only [pcpWaveEntries, List.mem_map] at he
    obtain ⟨x, hx, rfl⟩ := he
    have hxne : x ≠ ip0 := fun hxx => hip0s (hxx ▸ hx)
    simp [hothers x hxne]
  have ht' : ∀ e ∈ pcpWaveEntries t ips reply, e.2.2 = none := by
    intro e he
    simp only [pcpWaveEntries, List.mem_map] at he
    obtain ⟨x, hx, rfl⟩ := he
    have hxne : x ≠ ip0 := fun hxx => hip0t (hxx ▸ hx)
    simp [hothers x hxne]
  have hwave1 := processPcpResponses_single
    { internalPort := some 55556, protocol := some Proto.pcp } _
    cache (pcpWaveEntries s ips reply) (pcpWaveEntries t ips reply)
    ip0 ((longestPrefixMatch ips ip0).getD 0) r hs' ht' (hparse _)
  subst hmv
  unfold addMappingPcp
  show (Except.ok ips).bind _ = _
  rw [Except.bind]
  simp only [hst, hentries, hwave1]
  norm_num
  rfl

set_option maxRecDepth 4096 in
/-- **C10.** The probes are not read-only: `probePmpSupport`,
`probePcpSupport` and `probeUpnpSupport` each perform a real add at their
fixed probe port (55555, 55556, 55557) with requested lifetime 120, and
when the router grants the mapping, the probe's Mapping is inserted into
ActiveMappings under the probe port with its refresh or expiry timer
armed, exactly as for a caller-requested mapping. -/
theorem probes_perform_real_adds :
    (∀ (am : ActiveMappings) (responses : List (Option (List Nat × Nat)))
        (privateIps : Except (List Char) (List Nat)),
      probePmpSupport am responses privateIps =
        ((addMappingPmp 55555 55555 120 am responses
            privateIps).1.externalPort != -1,
         (addMappingPmp 55555 55555 120 am responses privateIps).2)) ∧
    (∀ (am : ActiveMappings) (cache : List Nat)
        (privateIps : Except (List Char) (List Nat))
        (reply : Nat → Option (List Nat)),
      probePcpSupport am cache privateIps reply =
        (addMappingPcp 55556 55556 120 am cache privateIps reply).map
          (fun x => (x.1.externalPort != -1, x.2))) ∧
    (∀ (am : ActiveMappings) (responses : List (Option (List Nat × Nat)))
        (data : List Nat) (addr : Nat) (ips : List Nat) (A : Nat)
        (mval : Mapping),
      mval = { internalPort := some 55555, protocol := some Proto.natPmp,
               externalPort := 55555, lifetime := some A,
               internalIp := longestPrefixMatch ips addr } →
      responses.findSome? id = some (data, addr) →
      getUint16 data 10 = some 55555 →
      getUint32 data 12 = some A →
      addMappingPmp 55555 55555 120 am responses (.ok ips) =
        (mval, amSet am 55555 mval,
         scheduleRefreshPmp 55555 120 55555 A) ∧
      amGet (amSet am 55555 mval) 55555 = some mval ∧
      scheduleRefreshPmp 55555 120 55555 A ≠ .noTimer ∧
      probePmpSupport am responses (.ok ips) =
        (true, amSet am 55555 mval,
         scheduleRefreshPmp 55555 120 55555 A)) ∧
    (∀ (am : ActiveMappings) (cache ips : List Nat)
        (reply : Nat → Option (List Nat)) (ip0 : Nat) (r : List Nat)
        (a b c d A w1 w2 w3 : Nat) (mval : Mapping),
      cache.Nodup →
      ip0 ∈ arrAdd cache (filterRouterIps ips) →
      (∀ ip, ip ≠ ip0 → reply ip = none) →
      reply ip0 = some r →
      r.get? 56 = some a → r.get? 57 = some b → r.get? 58 = some c →
      r.get? 59 = some d →
      getUint16 r 42 = some 55556 →
      getUint32 r 4 = some A →
      getUint32 r 24 = some w1 → getUint32 r 28 = some w2 →
      getUint32 r 32 = some w3 →
      mval = { internalPort := some 55556, protocol := some Proto.pcp,
               externalIp := some (ipv4 a b c d), externalPort := 55556,
               internalIp :=
                 some ((longestPrefixMatch ips ip0).getD 0),
               lifetime := some A, nonce := some (w1, w2, w3) } →
      addMappingPcp 55556 55556 120 am cache (.ok ips) reply =
        .ok (mval, amSet am 55556 mval,
             (if cache.contains ip0 then cache else cache ++ [ip0]),
             scheduleRefreshPcp 55556 120 55556 A) ∧
      amGet (amSet am 55556 mval) 55556 = some mval ∧
      scheduleRefreshPcp 55556 120 55556 A ≠ .noTimer ∧
      probePcpSupport am cache (.ok ips) reply =
        .ok (true, amSet am 55556 mval,
             (if cache.contains ip0 then cache else cache ++ [ip0]),
             scheduleRefreshPcp 55556 120 55556 A)) ∧
    (∀ (resp : List Char) (iip : Option Nat) (am : ActiveMappings)
        (mval : Mapping),
      mval = { internalPort := some 55557, protocol := some Proto.upnp,
               externalPort := 55557, internalIp := iip,
               lifetime := some 120 } →
      probeSupportUpnp (.ok resp) iip am =
        (true, amSet am 55557 mval, some (120 * 1000)) ∧
      amGet (amSet am 55557 mval) 55557 = some mval) := by
  refine ⟨fun am responses privateIps => rfl,
    fun am cache privateIps reply => rfl, ?_, ?_, ?_⟩
  · intro am responses data addr ips A mval hmv hfind h10 h12
    have hcore : addMappingPmp 55555 55555 120 am responses (.ok ips) =
        (mval, amSet am 55555 mval,
         scheduleRefreshPmp 55555 120 55555 A) := by
      subst hmv
      unfold addMappingPmp
      simp only [hfind, h10, h12]
      rfl
    refine ⟨hcore, amGet_amSet am 55555 mval,
      scheduleRefreshPmp_armed _ _ _ _ (by decide), ?_⟩
    have hprobe : probePmpSupport am responses (.ok ips) =
        ((addMappingPmp 55555 55555 120 am responses
            (.ok ips)).1.externalPort != -1,
         (addMappingPmp 55555 55555 120 am responses (.ok ips)).2) := rfl
    rw [hprobe, hcore]
    subst hmv
    rfl
  · intro am cache ips reply ip0 r a b c d A w1 w2 w3 mval hnd hip0
      hothers hr h56 h57 h58 h59 h42 h4 h24 h28 h32 hmv
    have hcore := pcp_add_single_responder am cache ips reply ip0 r
      a b c d A w1 w2 w3 mval hnd hip0 hothers hr h56 h57 h58 h59 h42
      h4 h24 h28 h32 hmv
    refine ⟨hcore, amGet_amSet am 55556 mval,
      scheduleRefreshPcp_armed _ _ _ _ (by decide), ?_⟩
    have hprobe : probePcpSupport am cache (.ok ips) reply =
        (addMappingPcp 55556 55556 120 am cache (.ok ips) reply).map
          (fun x => (x.1.externalPort != -1, x.2)) := rfl
    rw [hprobe, hcore]
    subst hmv
    rfl
  · intro resp iip am mval hmv
    subst hmv
    exact ⟨rfl, amGet_amSet am 55557 _⟩

/-- Witness for C10: a NAT-PMP probe whose router grants external port
55555 for 120 s inserts the probe mapping into ActiveMappings under 55555
with its timer armed. -/
theorem probes_perform_real_adds_witness :
    probePmpSupport []
        [some ([0, 0, 0, 0, 0, 0, 0, 0, 0, 0, 217, 3, 0, 0, 0, 120],
          ipv4 192 168 1 1)]
        (.ok [ipv4 192 168 1 50]) =
      (true,
       amSet [] 55555
         { internalPort := some 55555, protocol := some Proto.natPmp,
           externalPort := 55555, lifetime := some 120,
           internalIp :=
             longestPrefixMatch [ipv4 192 168 1 50] (ipv4 192 168 1 1) },
       scheduleRefreshPmp 55555 120 55555 120) :=
  (probes_perform_real_adds.2.2.1 []
    [some ([0, 0, 0, 0, 0, 0, 0, 0, 0, 0, 217, 3, 0, 0, 0, 120],
      ipv4 192 168 1 1)]
    [0, 0, 0, 0, 0, 0, 0, 0, 0, 0, 217, 3, 0, 0, 0, 120]
    (ipv4 192 168 1 1) [ipv4 192 168 1 50] 120
    { internalPort := some 55555, protocol := some Proto.natPmp,
      externalPort := 55555, lifetime := some 120,
      internalIp :=
        longestPrefixMatch [ipv4 192 168 1 50] (ipv4 192 168 1 1) }
    rfl rfl rfl rfl).2.2.2

end PortControl
